import Mathlib

/-!
Shallow embedding of the Trail-Mate (Trekteria) client screens found in
`src/app/components/trip-tabs/info-tab.tsx`: the `InfoTab` component
(`fetchTripInfo`, `fetchWeather`, rendering) and the `Home` screen
(`fetchPlans`, `fetchTrips`, `handleDeletePlan`, `formatDateRange`).

Modelling conventions:
* JS objects with optional fields become structures with `Option` fields
  (`none` models `undefined`/absent, which is also JS-falsy for the fields
  the code tests with truthiness).
* `AsyncStorage` / the cache service / supabase tables become association
  lists `List (String × _)` threaded explicitly; a `set` is a prepend, a
  lookup takes the most recent binding, matching key-value store semantics.
* An awaited call that can throw is modelled by an `Except Unit` (or an
  injected outcome parameter); a JS `TypeError` from dereferencing an
  absent field is modelled by an `Option` result (`none` = throw) or a
  `crashed` flag.
* JS timestamps (`Date.getTime()`, milliseconds, possibly negative for
  pre-1970 dates) are `Int`.
-/

namespace TrailMate

/-- Association-list lookup, most recent binding first (models both the
key-value cache service and a row lookup keyed by id). -/
def lookupAssoc {α : Type} (k : String) : List (String × α) → Option α
  | [] => none
  | (k', v) :: rest => if k' = k then some v else lookupAssoc k rest

/-- Deletes every binding whose key occurs in `keys` (models
`supabase.from(t).delete().in(col, keys)` and repeated cache deletes). -/
def removeAll {α : Type} (keys : List String) : List (String × α) → List (String × α)
  | [] => []
  | (k, v) :: rest =>
    if k ∈ keys then removeAll keys rest else (k, v) :: removeAll keys rest

/-- Deletes every binding for exactly key `k` (models
`supabase.from(t).delete().eq(col, k)`). -/
def removeKey {α : Type} (k : String) : List (String × α) → List (String × α)
  | [] => []
  | (k', v) :: rest =>
    if k' = k then removeKey k rest else (k', v) :: removeKey k rest

/-- `coordinates` sub-object of a trip record; `latitude`/`longitude` are
kept as the strings interpolated into URLs and cache keys. -/
structure Coordinates where
  latitude : Option String
  longitude : Option String
deriving Repr, DecidableEq

/-- `dateRange` sub-object (`startDate`/`endDate` strings). -/
structure DateRange where
  startDate : Option String
  endDate : Option String
deriving Repr, DecidableEq

/-- A trip row (`trips` table / `Trip` type / cached trail data), with the
fields `InfoTab` consumes; every field is optional, as the record is
backend-defined JSON. -/
structure TripRecord where
  id : Option String
  schedule : Option (List String)
  name : Option String
  location : Option String
  description : Option String
  cellService : Option String
  coordinates : Option Coordinates
  dateRange : Option DateRange
  amenities : Option (List String)
  highlights : Option (List String)
  warnings : Option (List String)
deriving Repr, DecidableEq

/-- Result state of one `fetchTripInfo` run: the `selectedTripId` storage
slot, the trail-data cache, the `tripInfo`/`error`/`loading` React states,
whether a supabase `trips` query was issued, and the trip id the run
resolved and used. -/
structure FetchTripInfoResult where
  storage : Option String
  trailCache : List (String × TripRecord)
  tripInfo : Option TripRecord
  error : Option String
  loading : Bool
  queried : Bool
  resolvedTripId : Option String
deriving Repr, DecidableEq

/-- The trip id `fetchTripInfo` ends up using: the `tripId` prop, else
`tripData?.id`, else the value stored under `"selectedTripId"`. -/
def resolveTripId (tripId : Option String) (tripData : Option TripRecord)
    (storage : Option String) : Option String :=
  match tripId with
  | some t => some t
  | none =>
    match tripData.bind (·.id) with
    | some t => some t
    | none => storage

/-- Embedding of `fetchTripInfo` (info-tab.tsx lines 69-122).
`storage` is the value under `"selectedTripId"` before the call,
`trailCache` the trail-data cache, and `query` the outcome of the
supabase `trips` query (`.error ()` = the awaited call threw). -/
def fetchTripInfo (tripId : Option String) (tripData : Option TripRecord)
    (storage : Option String) (trailCache : List (String × TripRecord))
    (query : Except Unit (List TripRecord)) : FetchTripInfoResult :=
  -- The code writes `currentTripId` to storage when it is truthy and
  -- otherwise reads storage into `currentTripId`; in both cases the
  -- storage slot and the id in use end up equal to `resolveTripId`.
  let currentTripId : Option String := resolveTripId tripId tripData storage
  if (tripData.bind (·.schedule)).isSome then
    { storage := currentTripId, trailCache := trailCache, tripInfo := tripData,
      error := none, loading := false, queried := false,
      resolvedTripId := currentTripId }
  else
    match currentTripId with
    | some cid =>
      match lookupAssoc cid trailCache with
      | some cached =>
        { storage := some cid, trailCache := trailCache, tripInfo := some cached,
          error := none, loading := false, queried := false,
          resolvedTripId := some cid }
      | none =>
        match query with
        | .ok (r :: _) =>
          { storage := some cid, trailCache := (cid, r) :: trailCache,
            tripInfo := some r, error := none, loading := false,
            queried := true, resolvedTripId := some cid }
        | .ok [] =>
          { storage := some cid, trailCache := trailCache, tripInfo := none,
            error := some "Trip not found.", loading := false,
            queried := true, resolvedTripId := some cid }
        | .error _ =>
          { storage := some cid, trailCache := trailCache, tripInfo := none,
            error := some "Failed to load trip info.", loading := false,
            queried := true, resolvedTripId := some cid }
    | none =>
      { storage := none, trailCache := trailCache, tripInfo := none,
        error := some "No trip ID available.", loading := false,
        queried := false, resolvedTripId := none }

/-- The `InfoTab` error screen is shown exactly when `error || !tripInfo`
(info-tab.tsx line 258). -/
def showsErrorScreen (error : Option String) (tripInfo : Option TripRecord) : Bool :=
  error.isSome || tripInfo.isNone

/-- Message displayed on the error screen: `error || "No trip data available."`. -/
def errorScreenMessage (error : Option String) : String :=
  error.getD "No trip data available."

/-- An empty trip record, for building concrete witnesses. -/
def emptyTrip : TripRecord :=
  { id := none, schedule := none, name := none, location := none,
    description := none, cellService := none, coordinates := none,
    dateRange := none, amenities := none, highlights := none, warnings := none }

/-- One element of the weather payload's `weather` array. -/
structure WeatherEntry where
  icon : String
  description : String
deriving Repr, DecidableEq

/-- The payload's `sys` sub-object (epoch seconds). -/
structure SysInfo where
  sunrise : Int
  sunset : Int
deriving Repr, DecidableEq

/-- The payload's `main` sub-object. -/
structure MainInfo where
  temp : Int
  temp_max : Int
  temp_min : Int
  feels_like : Int
  humidity : Int
  sea_level : Option Int
deriving Repr, DecidableEq

/-- A weather JSON payload as `fetchWeather` consumes it; `sys`/`main`
optional and `weather` possibly empty model malformed responses whose
field accesses throw. `rain1h` models `data.rain?.["1h"]`. -/
structure WeatherJson where
  weather : List WeatherEntry
  sys : Option SysInfo
  main : Option MainInfo
  rain1h : Option Int
deriving Repr, DecidableEq

/-- The `weather` React state as rendered (all display strings). -/
structure WeatherView where
  temperature : String
  status : String
  precipitation : String
  high : String
  low : String
  feels_like : String
  humidity : String
  seaLevel : String
  sunrise : String
  sunset : String
  iconUrl : String
deriving Repr, DecidableEq

/-- Environment for the display formatters `fetchWeather` uses:
`convert` renders `convertTemperature(x)` as `value + unit`, `fmtTime`
renders `new Date(ms).toLocaleTimeString(...)`. -/
structure RenderEnv where
  convert : Int → String
  fmtTime : Int → String

/-- `description.split(" ").map(capitalize).join(" ")`. -/
def statusOf (d : String) : String :=
  String.intercalate " " ((d.splitOn " ").map String.capitalize)

/-- The processing block of `fetchWeather` (info-tab.tsx lines 155-191):
builds the `weather` state from a payload, `none` when a field access
throws (`data.weather[0]` on an empty array, absent `sys` or `main`),
in which case `setWeather` is never called. -/
def processWeather (env : RenderEnv) (data : WeatherJson) : Option WeatherView :=
  match data.weather with
  | [] => none
  | w0 :: _ =>
    let iconCode := w0.icon.dropRight 1 ++ "d"
    match data.sys, data.main with
    | some sys, some m =>
      some {
        temperature := env.convert m.temp
        status := statusOf w0.description
        precipitation :=
          match data.rain1h with
          | some r => toString r ++ " mm"
          | none => "0 mm"
        high := env.convert m.temp_max
        low := env.convert m.temp_min
        feels_like := env.convert m.feels_like
        humidity := toString m.humidity ++ "%"
        seaLevel :=
          match m.sea_level with
          | some s => toString s ++ " Ft"
          | none => "N/A"
        sunrise := env.fmtTime (sys.sunrise * 1000)
        sunset := env.fmtTime (sys.sunset * 1000)
        iconUrl := "https://openweathermap.org/img/wn/" ++ iconCode ++ "@2x.png" }
    | _, _ => none

/-- The weather cache key: the template literal `lat + "," + lon + "," + date`. -/
def weatherCacheKey (lat lon date : String) : String :=
  lat ++ "," ++ lon ++ "," ++ date

/-- Outcome of the HTTP GET + `response.json()`: a parsed payload, or a
thrown network/parse error. -/
inductive FetchOutcome where
  | ok (data : WeatherJson)
  | threw
deriving Repr, DecidableEq

/-- Result of one `fetchWeather` run: the weather cache, the `weather`
React state (`none` = never set), whether an HTTP GET was issued, and
whether the run threw an uncaught `TypeError` (dereferencing `.latitude`
on an absent `coordinates`). -/
structure FetchWeatherResult where
  weatherCache : List (String × WeatherJson)
  weather : Option WeatherView
  fetched : Bool
  crashed : Bool
deriving Repr, DecidableEq

/-- Embedding of `fetchWeather` (info-tab.tsx lines 128-192). The guard
`!tripInfo?.coordinates.latitude || !tripInfo?.coordinates.longitude`
short-circuits on a nullish `tripInfo` but throws when `tripInfo` exists
and `coordinates` is absent. -/
def fetchWeather (env : RenderEnv) (tripInfo : Option TripRecord)
    (cache : List (String × WeatherJson)) (net : FetchOutcome) : FetchWeatherResult :=
  match tripInfo with
  | none =>
    { weatherCache := cache, weather := none, fetched := false, crashed := false }
  | some info =>
    match info.coordinates with
    | none =>
      { weatherCache := cache, weather := none, fetched := false, crashed := true }
    | some c =>
      match c.latitude, c.longitude with
      | some lat, some lon =>
        let date := (info.dateRange.bind (·.startDate)).getD ""
        let key := weatherCacheKey lat lon date
        match lookupAssoc key cache with
        | some data =>
          { weatherCache := cache, weather := processWeather env data,
            fetched := false, crashed := false }
        | none =>
          match net with
          | .threw =>
            { weatherCache := cache, weather := none,
              fetched := true, crashed := false }
          | .ok data =>
            { weatherCache := (key, data) :: cache, weather := processWeather env data,
              fetched := true, crashed := false }
      | _, _ =>
        { weatherCache := cache, weather := none, fetched := false, crashed := false }

/-- The weather cache key a given trip uses (defined when both
coordinates are present). -/
def tripWeatherKey (info : TripRecord) : Option String :=
  match info.coordinates with
  | none => none
  | some c =>
    match c.latitude, c.longitude with
    | some lat, some lon =>
      some (weatherCacheKey lat lon ((info.dateRange.bind (·.startDate)).getD ""))
    | _, _ => none

/-- Runs `fetchWeather` once per listed payload (each HTTP GET, were it
issued, would succeed with that payload), threading the cache; returns
the number of GETs actually issued and the final cache. -/
def runWeatherSeq (env : RenderEnv) (tripInfo : Option TripRecord)
    (cache : List (String × WeatherJson)) :
    List WeatherJson → Nat × List (String × WeatherJson)
  | [] => (0, cache)
  | d :: ds =>
    let r := fetchWeather env tripInfo cache (.ok d)
    let (n, c') := runWeatherSeq env tripInfo r.weatherCache ds
    ((if r.fetched then 1 else 0) + n, c')

/-- How each weather field renders in the UI: `weather?.field ?? "--"`. -/
def renderWeatherField (w : Option WeatherView) (f : WeatherView → String) : String :=
  match w with
  | some v => f v
  | none => "--"

/-- JS `s.includes(pat)` for a non-empty pattern. -/
def jsIncludes (s pat : String) : Bool :=
  (s.splitOn pat).length > 1

/-- What the `InfoTab` main content shows (the render-relevant strings). -/
structure RenderedInfo where
  name : String
  location : String
  description : String
  cellIcon : String
  cellText : String
  amenities : List String
  highlights : List String
  warnings : List String
  weatherTemperature : String
  weatherStatus : String
deriving Repr, DecidableEq

/-- The amenities block (info-tab.tsx lines 308-330): `"N/A"` unless
`amenities` is a non-empty array, else the capitalized labels. -/
def renderAmenityLabels (info : TripRecord) : List String :=
  match info.amenities with
  | some (a :: rest) => (a :: rest).map String.capitalize
  | _ => ["N/A"]

/-- The highlights block (info-tab.tsx lines 333-355), same shape. -/
def renderHighlightLabels (info : TripRecord) : List String :=
  match info.highlights with
  | some (h :: rest) => (h :: rest).map String.capitalize
  | _ => ["N/A"]

/-- Embedding of the `InfoTab` main render (info-tab.tsx lines 357-554).
`none` models the render throwing a `TypeError`: the only field access
not behind a presence check is `tripInfo.cellService.toLowerCase()`
(line 413); `name`/`location`/`description` render as empty when absent
(React renders `undefined` as nothing), and `amenities`/`highlights`/
`warnings` are guarded by `Array.isArray`/truthiness checks. -/
def renderInfoTab (info : TripRecord) (weather : Option WeatherView) :
    Option RenderedInfo :=
  match info.cellService with
  | none => none
  | some cs =>
    some {
      name := info.name.getD ""
      location := info.location.getD ""
      description := info.description.getD ""
      cellIcon := if jsIncludes cs.toLower "no" then "close-circle" else "cellular"
      cellText := "Cell Service: " ++ cs
      amenities := renderAmenityLabels info
      highlights := renderHighlightLabels info
      warnings :=
        match info.warnings with
        | some (w :: ws) => w :: ws
        | _ => []
      weatherTemperature := renderWeatherField weather (·.temperature)
      weatherStatus := renderWeatherField weather (·.status) }

/-- A plan row (`plans` table): its `tripIds` array and the parsed
timestamp of `preferences?.dateRange?.startDate` when that string is
present (`Int` milliseconds; negative for pre-1970 dates). -/
structure PlanRecord where
  tripIds : Option (List String)
  startDate : Option Int
deriving Repr, DecidableEq

/-- The backend/cache state the `Home` screen mutates. -/
structure HomeState where
  plansTable : List (String × PlanRecord)
  tripsTable : List (String × TripRecord)
  trailCache : List (String × TripRecord)
  chatCache : List (String × String)
deriving Repr, DecidableEq

/-- Injection point for a thrown error inside `handleDeletePlan`'s
`try` block: the plan fetch, the trips delete, or the plan delete. -/
inductive DeleteFailure where
  | fetchPlanStep
  | deleteTripsStep
  | deletePlanStep
deriving Repr, DecidableEq

/-- Embedding of the confirmed branch of `handleDeletePlan`
(info-tab.tsx lines 1553-1614): fetch the plan's `tripIds`, delete the
associated trips and their cache entries, then delete the plan row.
`failAt` injects a thrown error at a step; the `catch` only logs and
alerts, so the returned flag records that an error was surfaced while the
state keeps every mutation already performed. -/
def handleDeletePlan (st : HomeState) (planId : String)
    (failAt : Option DeleteFailure) : HomeState × Bool :=
  if failAt = some .fetchPlanStep then (st, true)
  else
    match lookupAssoc planId st.plansTable with
    | none => (st, true)
    | some plan =>
      match plan.tripIds with
      | some tids =>
        if failAt = some .deleteTripsStep then (st, true)
        else
          let st₁ : HomeState :=
            { st with tripsTable := removeAll tids st.tripsTable,
                      trailCache := removeAll tids st.trailCache,
                      chatCache := removeAll tids st.chatCache }
          if failAt = some .deletePlanStep then (st₁, true)
          else ({ st₁ with plansTable := removeKey planId st₁.plansTable }, false)
      | none =>
        if failAt = some .deletePlanStep then (st, true)
        else ({ st with plansTable := removeKey planId st.plansTable }, false)

/-- Stable insertion step matching the JS stable ascending sort with
comparator `keyA - keyB`. -/
def insertSorted {α : Type} (key : α → Int) (x : α) : List α → List α
  | [] => [x]
  | y :: ys => if key x ≤ key y then x :: y :: ys else y :: insertSorted key x ys

/-- Stable ascending sort by an integer key (the result
`Array.prototype.sort` produces for the comparator `keyA - keyB`). -/
def sortByKey {α : Type} (key : α → Int) : List α → List α
  | [] => []
  | x :: xs => insertSorted key x (sortByKey key xs)

/-- The sort key `fetchPlans` uses (info-tab.tsx lines 1328-1336):
the start date's timestamp when present, else `0`. -/
def planSortKey (p : PlanRecord) : Int :=
  p.startDate.getD 0

/-- The plans list `fetchPlans` stores on success (transformation to
`Plan` items is identity on the fields modelled here). -/
def fetchPlansResult (plansList : List PlanRecord) : List PlanRecord :=
  sortByKey planSortKey plansList

/-- A favorite-trip item as `fetchTrips` sorts it. -/
structure TripItem where
  id : Option String
deriving Repr, DecidableEq

/-- The `dates` mapping `fetchTrips` builds (info-tab.tsx lines
1377-1389): for each plan with `tripIds` and a present start date,
assign that date to every listed trip id (later plans overwrite). -/
def buildDates (plans : List PlanRecord) : List (String × Int) :=
  plans.foldl
    (fun acc plan =>
      match plan.tripIds, plan.startDate with
      | some tids, some sd => tids.foldl (fun a tid => (tid, sd) :: a) acc
      | _, _ => acc)
    []

/-- The sort key `fetchTrips` uses (info-tab.tsx lines 1394-1402):
`dates[trip.id || ""]?.startDate` timestamp when present, else `0`. -/
def tripSortKey (dates : List (String × Int)) (t : TripItem) : Int :=
  (lookupAssoc (t.id.getD "") dates).getD 0

/-- The favorite-trips list `fetchTrips` stores on success. -/
def fetchTripsResult (tripsList : List TripItem) (plans : List PlanRecord) :
    List TripItem :=
  sortByKey (tripSortKey (buildDates plans)) tripsList

/-- Abstract JS `Date` backend for `formatDateRange`: construction and
the three formatters, each allowed to throw (`Except`), matching the
function's `try`/`catch`. -/
structure DateBackend (δ : Type) where
  parse : String → Except Unit δ
  toDateString : δ → Except Unit String
  fmtMDY : δ → Except Unit String
  fmtMD : δ → Except Unit String

/-- The `try` body of `formatDateRange` (info-tab.tsx lines 1937-1963)
in the `Except` monad: parse the start date, parse the end date when the
string is truthy, then one date (end absent or same `toDateString` day)
or a range. -/
def formatDateRangeE {δ : Type} (B : DateBackend δ) (startDate : String)
    (endDate : Option String) : Except Unit String := do
  let start ← B.parse startDate
  match endDate with
  | none => B.fmtMDY start
  | some e =>
    if e = "" then B.fmtMDY start
    else do
      let en ← B.parse e
      let sd ← B.toDateString start
      let ed ← B.toDateString en
      if sd = ed then B.fmtMDY start
      else do
        let a ← B.fmtMD start
        let b ← B.fmtMDY en
        pure (a ++ " - " ++ b)

/-- `formatDateRange`: the `try` body, with the `catch` returning the raw
`startDate` string. -/
def formatDateRange {δ : Type} (B : DateBackend δ) (startDate : String)
    (endDate : Option String) : String :=
  match formatDateRangeE B startDate endDate with
  | .ok s => s
  | .error _ => startDate

/-- Sample formatter environment for concrete witnesses. -/
def sampleEnv : RenderEnv :=
  { convert := fun n => toString n ++ "F", fmtTime := fun n => toString n }

/-- Sample trip with defined coordinates and a start date. -/
def sampleTrip : TripRecord :=
  { emptyTrip with
    coordinates := some { latitude := some "10", longitude := some "20" },
    dateRange := some { startDate := some "2024-06-01", endDate := none } }

/-- Payload whose processing throws: empty `weather` array, no `sys`/`main`. -/
def badWeather : WeatherJson :=
  { weather := [], sys := none, main := none, rain1h := none }

/-- Characterization of `fetchWeather` when the trip's weather key is
defined: cache hit serves the cached payload without fetching; cache miss
fetches, and on success stores the payload under the key. -/
theorem fetchWeather_char (env : RenderEnv) (info : TripRecord)
    (cache : List (String × WeatherJson)) (net : FetchOutcome) (key : String)
    (hkey : tripWeatherKey info = some key) :
    (∀ d, lookupAssoc key cache = some d →
      fetchWeather env (some info) cache net
        = { weatherCache := cache, weather := processWeather env d,
            fetched := false, crashed := false }) ∧
    (lookupAssoc key cache = none → net = .threw →
      fetchWeather env (some info) cache net
        = { weatherCache := cache, weather := none,
            fetched := true, crashed := false }) ∧
    (∀ d, lookupAssoc key cache = none → net = .ok d →
      fetchWeather env (some info) cache net
        = { weatherCache := (key, d) :: cache, weather := processWeather env d,
            fetched := true, crashed := false }) := by
  rcases hc : info.coordinates with _ | c
  · simp [tripWeatherKey, hc] at hkey
  · rcases hla : c.latitude with _ | lat
    · simp [tripWeatherKey, hc, hla] at hkey
    · rcases hlo : c.longitude with _ | lon
      · simp [tripWeatherKey, hc, hla, hlo] at hkey
      · simp only [tripWeatherKey, hc, hla, hlo, Option.some.injEq] at hkey
        subst hkey
        refine ⟨?_, ?_, ?_⟩
        · intro d hd
          simp [fetchWeather, hc, hla, hlo, hd]
        · intro hmiss hnet
          subst hnet
          simp [fetchWeather, hc, hla, hlo, hmiss]
        · intro d hmiss hnet
          subst hnet
          simp [fetchWeather, hc, hla, hlo, hmiss]

/-- When the trip's key is already cached, a run of `fetchWeather` calls
issues no GET at all. -/
theorem runWeatherSeq_hit_zero (env : RenderEnv) (info : TripRecord) (key : String)
    (hkey : tripWeatherKey info = some key) :
    ∀ (ds : List WeatherJson) (cache : List (String × WeatherJson)),
      (lookupAssoc key cache).isSome →
      (runWeatherSeq env (some info) cache ds).1 = 0 := by
  intro ds
  induction ds with
  | nil => intro cache _; rfl
  | cons d rest ih =>
    intro cache hhit
    obtain ⟨d0, hd0⟩ := Option.isSome_iff_exists.mp hhit
    have hchar := (fetchWeather_char env info cache (.ok d) key hkey).1 d0 hd0
    simp only [runWeatherSeq, hchar]
    have := ih cache (by simp [hd0])
    simp [this]

/-- C2: for a trip with defined coordinates, the weather cache key is the
string `lat ++ "," ++ lon ++ "," ++ date` (date being the range's start
date or empty); a cached entry under that key suppresses the network GET
entirely; on a miss the fetched JSON is stored under that key; and any
run of `fetchWeather` calls whose GETs succeed issues at most one GET for
the triple. -/
theorem c2_weather_single_fetch (env : RenderEnv) (info : TripRecord)
    (cache : List (String × WeatherJson)) (key : String)
    (hkey : tripWeatherKey info = some key) :
    (∀ c lat lon, info.coordinates = some c → c.latitude = some lat →
      c.longitude = some lon →
      key = lat ++ "," ++ lon ++ "," ++ ((info.dateRange.bind (·.startDate)).getD "")) ∧
    (∀ net d, lookupAssoc key cache = some d →
      (fetchWeather env (some info) cache net).fetched = false) ∧
    (∀ d, lookupAssoc key cache = none →
      (fetchWeather env (some info) cache (.ok d)).fetched = true ∧
      lookupAssoc key (fetchWeather env (some info) cache (.ok d)).weatherCache
        = some d) ∧
    (∀ ds : List WeatherJson, (runWeatherSeq env (some info) cache ds).1 ≤ 1) := by
  refine ⟨?_, ?_, ?_, ?_⟩
  · intro c lat lon hc hla hlo
    simp only [tripWeatherKey, hc, hla, hlo, Option.some.injEq, weatherCacheKey] at hkey
    exact hkey.symm
  · intro net d hd
    have := (fetchWeather_char env info cache net key hkey).1 d hd
    simp [this]
  · intro d hmiss
    have := (fetchWeather_char env info cache (.ok d) key hkey).2.2 d hmiss rfl
    simp [this, lookupAssoc]
  · intro ds
    cases ds with
    | nil => simp [runWeatherSeq]
    | cons d rest =>
      rcases hlk : lookupAssoc key cache with _ | d0
      · have hchar := (fetchWeather_char env info cache (.ok d) key hkey).2.2 d hlk rfl
        simp only [runWeatherSeq, hchar]
        have hz := runWeatherSeq_hit_zero env info key hkey rest ((key, d) :: cache)
          (by simp [lookupAssoc])
        simp [hz]
      · have hz := runWeatherSeq_hit_zero env info key hkey (d :: rest) cache
          (by simp [hlk])
        simp [hz]

/-- Witness for C2 at a concrete input: trip at (10,20) starting
2024-06-01, empty cache, two successive successful fetches. -/
theorem c2_weather_single_fetch_witness :
    (fetchWeather sampleEnv (some sampleTrip) [] (.ok badWeather)).fetched = true ∧
    lookupAssoc "10,20,2024-06-01"
      (fetchWeather sampleEnv (some sampleTrip) [] (.ok badWeather)).weatherCache
      = some badWeather ∧
    (runWeatherSeq sampleEnv (some sampleTrip) [] [badWeather, badWeather]).1 ≤ 1 := by
  have h := c2_weather_single_fetch sampleEnv sampleTrip [] "10,20,2024-06-01" rfl
  have h1 := h.2.2.1 badWeather rfl
  exact ⟨h1.1, h1.2, h.2.2.2 [badWeather, badWeather]⟩

/-- C3: when the weather HTTP fetch throws, `fetchWeather` returns without
setting the weather state and without writing any cache entry, without an
uncaught error, and every weather field in the UI then renders as the
blank placeholder `"--"`. -/
theorem c3_weather_failure_blank (env : RenderEnv) (info : TripRecord)
    (cache : List (String × WeatherJson)) (key : String)
    (hkey : tripWeatherKey info = some key)
    (hmiss : lookupAssoc key cache = none) :
    (fetchWeather env (some info) cache .threw).weather = none ∧
    (fetchWeather env (some info) cache .threw).weatherCache = cache ∧
    (fetchWeather env (some info) cache .threw).crashed = false ∧
    ∀ f, renderWeatherField (fetchWeather env (some info) cache .threw).weather f
      = "--" := by
  have h := (fetchWeather_char env info cache .threw key hkey).2.1 hmiss rfl
  refine ⟨by simp [h], by simp [h], by simp [h], ?_⟩
  intro f
  simp [h, renderWeatherField]

/-- Witness for C3 at a concrete input. -/
theorem c3_weather_failure_blank_witness :
    (fetchWeather sampleEnv (some sampleTrip) [] .threw).weather = none ∧
    renderWeatherField (fetchWeather sampleEnv (some sampleTrip) [] .threw).weather
      (·.temperature) = "--" := by
  have h := c3_weather_failure_blank sampleEnv sampleTrip [] "10,20,2024-06-01" rfl rfl
  exact ⟨h.1, h.2.2.2 (·.temperature)⟩

/-- C8: a freshly fetched payload is cached before it is validated: if the
response parses as JSON but fails processing (`processWeather` = none),
the malformed payload has already been stored under the (lat, lon, date)
key and the weather state stays unset, and a subsequent load for the same
key serves the malformed payload from cache, skipping the network. -/
theorem c8_malformed_payload_cached (env : RenderEnv) (info : TripRecord)
    (cache : List (String × WeatherJson)) (key : String) (d : WeatherJson)
    (net : FetchOutcome)
    (hkey : tripWeatherKey info = some key)
    (hmiss : lookupAssoc key cache = none)
    (hmal : processWeather env d = none) :
    lookupAssoc key (fetchWeather env (some info) cache (.ok d)).weatherCache
      = some d ∧
    (fetchWeather env (some info) cache (.ok d)).weather = none ∧
    (fetchWeather env (some info) cache (.ok d)).fetched = true ∧
    (fetchWeather env (some info)
      (fetchWeather env (some info) cache (.ok d)).weatherCache net).fetched
      = false ∧
    (fetchWeather env (some info)
      (fetchWeather env (some info) cache (.ok d)).weatherCache net).weather
      = none := by
  have h1 := (fetchWeather_char env info cache (.ok d) key hkey).2.2 d hmiss rfl
  have hcached : lookupAssoc key ((key, d) :: cache) = some d := by
    simp [lookupAssoc]
  have h2 := (fetchWeather_char env info ((key, d) :: cache) net key hkey).1 d hcached
  refine ⟨?_, ?_, ?_, ?_, ?_⟩
  · simp [h1, lookupAssoc]
  · simp [h1, hmal]
  · simp [h1]
  · simp [h1, h2]
  · simp [h1, h2, hmal]

/-- Witness for C8 at a concrete input: a payload with an empty `weather`
array is fetched, cached, and then served malformed from the cache. -/
theorem c8_malformed_payload_cached_witness :
    lookupAssoc "10,20,2024-06-01"
      (fetchWeather sampleEnv (some sampleTrip) [] (.ok badWeather)).weatherCache
      = some badWeather ∧
    (fetchWeather sampleEnv (some sampleTrip)
      (fetchWeather sampleEnv (some sampleTrip) [] (.ok badWeather)).weatherCache
      .threw).fetched = false := by
  have h := c8_malformed_payload_cached sampleEnv sampleTrip [] "10,20,2024-06-01"
    badWeather .threw rfl rfl rfl
  exact ⟨h.1, h.2.2.2.1⟩

/-- C1: for every trip id, `fetchTripInfo` is cache-first: a cached trail
record is rendered (becomes `tripInfo`) with no supabase query and no
cache change; only on a cache miss is the `trips` table queried, and a
query returning at least one row renders that row and writes it to the
cache under the trip id. (Hypotheses: a trip id resolves, and `tripData`
does not carry a `schedule` array, which would short-circuit before any
trail-data loading.) -/
theorem c1_trail_cache_first (tripId : Option String) (tripData : Option TripRecord)
    (storage : Option String) (cache : List (String × TripRecord))
    (query : Except Unit (List TripRecord)) (cid : String)
    (hsched : tripData.bind (·.schedule) = none)
    (hres : resolveTripId tripId tripData storage = some cid) :
    (∀ rec, lookupAssoc cid cache = some rec →
      (fetchTripInfo tripId tripData storage cache query).tripInfo = some rec ∧
      (fetchTripInfo tripId tripData storage cache query).queried = false ∧
      (fetchTripInfo tripId tripData storage cache query).trailCache = cache) ∧
    (lookupAssoc cid cache = none →
      (fetchTripInfo tripId tripData storage cache query).queried = true) ∧
    (∀ row rest, lookupAssoc cid cache = none → query = .ok (row :: rest) →
      (fetchTripInfo tripId tripData storage cache query).tripInfo = some row ∧
      lookupAssoc cid (fetchTripInfo tripId tripData storage cache query).trailCache
        = some row) := by
  refine ⟨?_, ?_, ?_⟩
  · intro rec hlk
    simp [fetchTripInfo, hres, hsched, hlk]
  · intro hlk
    simp only [fetchTripInfo, hres, hsched, hlk, Option.isSome_none, Bool.false_eq_true,
      if_false]
    cases query with
    | ok rows => cases rows <;> rfl
    | error e => rfl
  · intro row rest hlk hq
    subst hq
    simp [fetchTripInfo, hres, hsched, hlk, lookupAssoc]

/-- Witness for C1 at a concrete input: trip id `"t1"`, a cache holding a
record for `"t1"`, and a query that would throw if issued. -/
theorem c1_trail_cache_first_witness :
    (fetchTripInfo (some "t1") none none [("t1", emptyTrip)] (.error ())).tripInfo
      = some emptyTrip ∧
    (fetchTripInfo (some "t1") none none [("t1", emptyTrip)] (.error ())).queried
      = false := by
  have h := c1_trail_cache_first (some "t1") none none [("t1", emptyTrip)]
    (.error ()) "t1" rfl rfl
  have h1 := h.1 emptyTrip (by simp [lookupAssoc])
  exact ⟨h1.1, h1.2.1⟩

/-- C5: every failure mode of `fetchTripInfo` surfaces exactly one generic
message — "Failed to load trip info." when the awaited query throws,
"Trip not found." when it returns no row, "No trip ID available." when no
trip id resolves — and in each case the loading flag is cleared and the
error screen is rendered with that message. -/
theorem c5_trip_info_error_messages (tripId : Option String)
    (tripData : Option TripRecord) (storage : Option String)
    (cache : List (String × TripRecord)) (query : Except Unit (List TripRecord))
    (hsched : tripData.bind (·.schedule) = none) :
    (∀ cid, resolveTripId tripId tripData storage = some cid →
      lookupAssoc cid cache = none → query = .error () →
      (fetchTripInfo tripId tripData storage cache query).error
          = some "Failed to load trip info." ∧
      (fetchTripInfo tripId tripData storage cache query).loading = false ∧
      showsErrorScreen (fetchTripInfo tripId tripData storage cache query).error
          (fetchTripInfo tripId tripData storage cache query).tripInfo = true ∧
      errorScreenMessage (fetchTripInfo tripId tripData storage cache query).error
          = "Failed to load trip info.") ∧
    (∀ cid, resolveTripId tripId tripData storage = some cid →
      lookupAssoc cid cache = none → query = .ok [] →
      (fetchTripInfo tripId tripData storage cache query).error
          = some "Trip not found." ∧
      (fetchTripInfo tripId tripData storage cache query).loading = false ∧
      showsErrorScreen (fetchTripInfo tripId tripData storage cache query).error
          (fetchTripInfo tripId tripData storage cache query).tripInfo = true ∧
      errorScreenMessage (fetchTripInfo tripId tripData storage cache query).error
          = "Trip not found.") ∧
    (resolveTripId tripId tripData storage = none →
      (fetchTripInfo tripId tripData storage cache query).error
          = some "No trip ID available." ∧
      (fetchTripInfo tripId tripData storage cache query).loading = false ∧
      showsErrorScreen (fetchTripInfo tripId tripData storage cache query).error
          (fetchTripInfo tripId tripData storage cache query).tripInfo = true ∧
      errorScreenMessage (fetchTripInfo tripId tripData storage cache query).error
          = "No trip ID available.") := by
  refine ⟨?_, ?_, ?_⟩
  · intro cid hres hlk hq
    subst hq
    simp [fetchTripInfo, hres, hsched, hlk, showsErrorScreen, errorScreenMessage]
  · intro cid hres hlk hq
    subst hq
    simp [fetchTripInfo, hres, hsched, hlk, showsErrorScreen, errorScreenMessage]
  · intro hres
    simp [fetchTripInfo, hres, hsched, showsErrorScreen, errorScreenMessage]

/-- Witness for C5 at concrete inputs covering all three failure modes. -/
theorem c5_trip_info_error_messages_witness :
    (fetchTripInfo (some "t1") none none [] (.error ())).error
        = some "Failed to load trip info." ∧
    (fetchTripInfo (some "t1") none none [] (.ok [])).error
        = some "Trip not found." ∧
    (fetchTripInfo none none none [] (.ok [])).error
        = some "No trip ID available." ∧
    (fetchTripInfo none none none [] (.ok [])).loading = false := by
  have h1 := (c5_trip_info_error_messages (some "t1") none none [] (.error ()) rfl).1
    "t1" rfl rfl rfl
  have h2 := ((c5_trip_info_error_messages (some "t1") none none [] (.ok [])
    rfl).2.1) "t1" rfl rfl rfl
  have h3 := ((c5_trip_info_error_messages none none none [] (.ok []) rfl).2.2) rfl
  exact ⟨h1.1, h2.1, h3.1, h3.2.1⟩

/-- C7: `fetchTripInfo` maintains the `"selectedTripId"` storage slot:
an id from the `tripId` prop, or from `tripData.id` as fallback, is
written to storage and used as the current trip id; when the caller
supplies no id, storage is left unchanged and its previous value is read
and used as the current trip id. -/
theorem c7_selected_trip_id (tripId : Option String) (tripData : Option TripRecord)
    (storage : Option String) (cache : List (String × TripRecord))
    (query : Except Unit (List TripRecord)) :
    (∀ t, tripId = some t →
      (fetchTripInfo tripId tripData storage cache query).storage = some t ∧
      (fetchTripInfo tripId tripData storage cache query).resolvedTripId = some t) ∧
    (∀ t, tripId = none → tripData.bind (·.id) = some t →
      (fetchTripInfo tripId tripData storage cache query).storage = some t ∧
      (fetchTripInfo tripId tripData storage cache query).resolvedTripId = some t) ∧
    (tripId = none → tripData.bind (·.id) = none →
      (fetchTripInfo tripId tripData storage cache query).storage = storage ∧
      (fetchTripInfo tripId tripData storage cache query).resolvedTripId = storage) := by
  have hkey : (fetchTripInfo tripId tripData storage cache query).storage
      = resolveTripId tripId tripData storage ∧
      (fetchTripInfo tripId tripData storage cache query).resolvedTripId
      = resolveTripId tripId tripData storage := by
    simp only [fetchTripInfo]
    rcases h : resolveTripId tripId tripData storage with _ | cid
    · cases htd : (tripData.bind (·.schedule)).isSome <;> simp [h]
    · cases htd : (tripData.bind (·.schedule)).isSome
      · rcases h2 : lookupAssoc cid cache with _ | cached
        · rcases query with e | (_ | ⟨r, rest⟩) <;> simp [h2]
        · simp [h2]
      · simp [h]
  obtain ⟨hstore, hresv⟩ := hkey
  refine ⟨?_, ?_, ?_⟩
  · intro t ht
    subst ht
    rw [hstore, hresv]
    exact ⟨rfl, rfl⟩
  · intro t ht hid
    subst ht
    rw [hstore, hresv]
    simp [resolveTripId, hid]
  · intro ht hid
    subst ht
    rw [hstore, hresv]
    simp [resolveTripId, hid]

/-- Witness for C7 at concrete inputs: an explicit prop id is written; with
no caller-supplied id the stored value is read and used. -/
theorem c7_selected_trip_id_witness :
    (fetchTripInfo (some "t9") none none [] (.ok [])).storage = some "t9" ∧
    (fetchTripInfo none none (some "t8") [] (.ok [])).storage = some "t8" ∧
    (fetchTripInfo none none (some "t8") [] (.ok [])).resolvedTripId = some "t8" := by
  have h1 := (c7_selected_trip_id (some "t9") none none [] (.ok [])).1 "t9" rfl
  have h3 := (c7_selected_trip_id none none (some "t8") [] (.ok [])).2.2 rfl rfl
  exact ⟨h1.1, h3.1, h3.2⟩

/-- A trip record that is fully populated except for `cellService`. -/
def tripNoCell : TripRecord :=
  { emptyTrip with
    id := some "t1", name := some "Pine Loop", location := some "CO",
    description := some "A loop trail.",
    coordinates := some { latitude := some "10", longitude := some "20" },
    amenities := some ["water"], highlights := some ["views"] }

/-- C4 counterexample: the claim that `InfoTab` never dereferences a
possibly-absent field of `tripInfo` without a presence check is false: for
a trip record lacking `cellService` (all other fields present), the render
evaluates `tripInfo.cellService.toLowerCase()` and throws (modelled as
`renderInfoTab` returning `none`). -/
theorem c4_optional_fields_cex :
    tripNoCell.cellService = none ∧ renderInfoTab tripNoCell none = none := by
  exact ⟨rfl, rfl⟩

/-- C4 amended: `amenities`, `highlights` and `warnings` are
presence-checked before rendering, but `tripInfo.cellService` is
dereferenced unconditionally — the render succeeds exactly when
`cellService` is present — and `fetchWeather`'s guard only protects
against a nullish `tripInfo`, not an absent `coordinates` object: the run
throws an uncaught TypeError exactly when `coordinates` is absent. -/
theorem c4_optional_fields_amended (info : TripRecord) (w : Option WeatherView)
    (env : RenderEnv) (cache : List (String × WeatherJson)) (net : FetchOutcome) :
    ((renderInfoTab info w).isSome ↔ info.cellService.isSome) ∧
    ((fetchWeather env (some info) cache net).crashed = true ↔
      info.coordinates = none) := by
  constructor
  · cases h : info.cellService <;> simp [renderInfoTab, h]
  · rcases hc : info.coordinates with _ | c
    · simp [fetchWeather, hc]
    · rcases hla : c.latitude with _ | lat
      · simp [fetchWeather, hc, hla]
      · rcases hlo : c.longitude with _ | lon
        · simp [fetchWeather, hc, hla, hlo]
        · rcases hl : lookupAssoc
            (weatherCacheKey lat lon ((info.dateRange.bind (·.startDate)).getD ""))
            cache with _ | d
          · cases net <;> simp [fetchWeather, hc, hla, hlo, hl]
          · simp [fetchWeather, hc, hla, hlo, hl]

/-- Deleting every key in `keys` really removes every binding for a
member of `keys`. -/
theorem lookupAssoc_removeAll_none {α : Type} (keys : List String) (t : String)
    (ht : t ∈ keys) :
    ∀ tbl : List (String × α), lookupAssoc t (removeAll keys tbl) = none := by
  intro tbl
  induction tbl with
  | nil => rfl
  | cons kv rest ih =>
    obtain ⟨k, v⟩ := kv
    by_cases hk : k ∈ keys
    · simp [removeAll, hk, ih]
    · have hne : k ≠ t := fun h => hk (h ▸ ht)
      simp [removeAll, hk, lookupAssoc, hne, ih]

/-- C6: `handleDeletePlan` has no partial-failure recovery: when the final
plan-row delete throws, the error is surfaced but the trips already
deleted from the `trips` table and the already-cleared trail/chat cache
entries are not restored — the plan row remains while its trips are
gone. -/
theorem c6_delete_plan_no_rollback (st : HomeState) (planId : String)
    (plan : PlanRecord) (tids : List String)
    (hplan : lookupAssoc planId st.plansTable = some plan)
    (htids : plan.tripIds = some tids) :
    (handleDeletePlan st planId (some .deletePlanStep)).2 = true ∧
    lookupAssoc planId
      (handleDeletePlan st planId (some .deletePlanStep)).1.plansTable
      = some plan ∧
    (∀ t ∈ tids,
      lookupAssoc t (handleDeletePlan st planId (some .deletePlanStep)).1.tripsTable
        = none ∧
      lookupAssoc t (handleDeletePlan st planId (some .deletePlanStep)).1.trailCache
        = none ∧
      lookupAssoc t (handleDeletePlan st planId (some .deletePlanStep)).1.chatCache
        = none) := by
  have hrun : handleDeletePlan st planId (some .deletePlanStep)
      = ({ st with tripsTable := removeAll tids st.tripsTable,
                   trailCache := removeAll tids st.trailCache,
                   chatCache := removeAll tids st.chatCache }, true) := by
    simp [handleDeletePlan, hplan, htids]
  refine ⟨by simp [hrun], by simp [hrun, hplan], ?_⟩
  intro t ht
  exact ⟨by simp [hrun, lookupAssoc_removeAll_none tids t ht],
    by simp [hrun, lookupAssoc_removeAll_none tids t ht],
    by simp [hrun, lookupAssoc_removeAll_none tids t ht]⟩

/-- Witness for C6 at a concrete state: one plan owning one trip; the
plan-row delete throws; the trip and its caches are gone, the plan stays. -/
theorem c6_delete_plan_no_rollback_witness :
    (handleDeletePlan
      { plansTable := [("p1", { tripIds := some ["t1"], startDate := none })],
        tripsTable := [("t1", emptyTrip)], trailCache := [("t1", emptyTrip)],
        chatCache := [("t1", "hello")] } "p1" (some .deletePlanStep)).2 = true ∧
    lookupAssoc "p1" (handleDeletePlan
      { plansTable := [("p1", { tripIds := some ["t1"], startDate := none })],
        tripsTable := [("t1", emptyTrip)], trailCache := [("t1", emptyTrip)],
        chatCache := [("t1", "hello")] } "p1" (some .deletePlanStep)).1.plansTable
      = some { tripIds := some ["t1"], startDate := none } ∧
    lookupAssoc "t1" (handleDeletePlan
      { plansTable := [("p1", { tripIds := some ["t1"], startDate := none })],
        tripsTable := [("t1", emptyTrip)], trailCache := [("t1", emptyTrip)],
        chatCache := [("t1", "hello")] } "p1" (some .deletePlanStep)).1.tripsTable
      = none := by
  have h := c6_delete_plan_no_rollback
    { plansTable := [("p1", { tripIds := some ["t1"], startDate := none })],
      tripsTable := [("t1", emptyTrip)], trailCache := [("t1", emptyTrip)],
      chatCache := [("t1", "hello")] } "p1"
    { tripIds := some ["t1"], startDate := none } ["t1"] rfl rfl
  exact ⟨h.1, h.2.1, (h.2.2 "t1" (by simp)).1⟩

/-- Inserting into a list is a permutation of consing. -/
theorem insertSorted_perm {α : Type} (key : α → Int) (x : α) (l : List α) :
    List.Perm (insertSorted key x l) (x :: l) := by
  induction l with
  | nil => exact List.Perm.refl [x]
  | cons y ys ih =>
    by_cases h : key x ≤ key y
    · simp [insertSorted, h]
    · simp only [insertSorted, if_neg h]
      exact List.Perm.trans (List.Perm.cons y ih) (List.Perm.swap x y ys)

/-- Inserting into a key-sorted list keeps it key-sorted. -/
theorem insertSorted_pairwise {α : Type} (key : α → Int) (x : α) (l : List α)
    (hl : l.Pairwise (fun a b => key a ≤ key b)) :
    (insertSorted key x l).Pairwise (fun a b => key a ≤ key b) := by
  induction l with
  | nil => simp [insertSorted]
  | cons y ys ih =>
    rw [List.pairwise_cons] at hl
    obtain ⟨hy, hys⟩ := hl
    by_cases h : key x ≤ key y
    · simp only [insertSorted, if_pos h]
      rw [List.pairwise_cons]
      refine ⟨?_, List.Pairwise.cons hy hys⟩
      intro b hb
      rcases List.mem_cons.mp hb with rfl | hb
      · exact h
      · exact le_trans h (hy b hb)
    · simp only [insertSorted, if_neg h]
      rw [List.pairwise_cons]
      refine ⟨?_, ih hys⟩
      intro b hb
      rcases List.mem_cons.mp ((insertSorted_perm key x ys).mem_iff.mp hb)
          with rfl | hb
      · exact le_of_lt (lt_of_not_le h)
      · exact hy b hb

/-- The stable sort is a permutation of its input. -/
theorem sortByKey_perm {α : Type} (key : α → Int) (l : List α) :
    List.Perm (sortByKey key l) l := by
  induction l with
  | nil => exact List.Perm.refl []
  | cons x xs ih =>
    exact List.Perm.trans (insertSorted_perm key x (sortByKey key xs))
      (List.Perm.cons x ih)

/-- The stable sort's output is ascending in the key. -/
theorem sortByKey_pairwise {α : Type} (key : α → Int) (l : List α) :
    (sortByKey key l).Pairwise (fun a b => key a ≤ key b) := by
  induction l with
  | nil => simp [sortByKey]
  | cons x xs ih => exact insertSorted_pairwise key x (sortByKey key xs) ih

/-- In a pairwise-related list, an earlier element relates to a later one. -/
theorem pairwise_of_decomp {α : Type} {R : α → α → Prop}
    {l pre mid post : List α} {a b : α}
    (hp : l.Pairwise R) (hd : l = pre ++ a :: (mid ++ b :: post)) : R a b := by
  subst hd
  rw [List.pairwise_append] at hp
  have h2 := hp.2.1
  rw [List.pairwise_cons] at h2
  exact h2.1 b (by simp)

/-- A plan with no resolvable start date. -/
def planNoDate : PlanRecord := { tripIds := none, startDate := none }

/-- A plan whose start date is 1960-01-01, i.e. a real date whose JS
timestamp `new Date("1960-01-01").getTime()` is negative. -/
def planOld : PlanRecord := { tripIds := none, startDate := some (-315619200000) }

/-- C9 counterexample: the claim that an item with no resolvable start
date (key 0) is placed before every item with a real date is false: a
plan dated 1960-01-01 (negative JS timestamp) sorts before the undated
plan. -/
theorem c9_sorted_cex :
    fetchPlansResult [planNoDate, planOld] = [planOld, planNoDate] ∧
    planNoDate.startDate = none ∧ planOld.startDate.isSome = true := by
  refine ⟨?_, rfl, rfl⟩
  decide

/-- C9 amended: after `fetchPlans` and `fetchTrips` complete successfully,
the plans list and the favorite-trips list are each a permutation of the
fetched rows sorted ascending by their plan's start-date timestamp, with
an item lacking a resolvable start date assigned timestamp 0 — so such an
item is placed before every item whose start date has a positive (post
Unix epoch) timestamp, though after items with pre-epoch dates. -/
theorem c9_sorted_amended (plansList : List PlanRecord)
    (tripsList : List TripItem) (plans : List PlanRecord) :
    (fetchPlansResult plansList).Pairwise
      (fun a b => planSortKey a ≤ planSortKey b) ∧
    List.Perm (fetchPlansResult plansList) plansList ∧
    (fetchTripsResult tripsList plans).Pairwise
      (fun a b => tripSortKey (buildDates plans) a ≤ tripSortKey (buildDates plans) b) ∧
    List.Perm (fetchTripsResult tripsList plans) tripsList ∧
    (∀ pre mid post a b,
      fetchPlansResult plansList = pre ++ a :: (mid ++ b :: post) →
      b.startDate = none → planSortKey a ≤ 0) := by
  refine ⟨sortByKey_pairwise planSortKey plansList,
    sortByKey_perm planSortKey plansList,
    sortByKey_pairwise (tripSortKey (buildDates plans)) tripsList,
    sortByKey_perm (tripSortKey (buildDates plans)) tripsList, ?_⟩
  intro pre mid post a b hdecomp hb
  have hR := pairwise_of_decomp (sortByKey_pairwise planSortKey plansList) hdecomp
  rwa [show planSortKey b = 0 by simp [planSortKey, hb]] at hR

/-- Witness for C9 (amended) at a concrete input: the pre-epoch plan sorts
first, and the decomposition instance of the placement conjunct holds. -/
theorem c9_sorted_amended_witness :
    (fetchPlansResult [planOld, planNoDate]).Pairwise
      (fun a b => planSortKey a ≤ planSortKey b) ∧
    planSortKey planOld ≤ 0 := by
  have h := c9_sorted_amended [planOld, planNoDate] [] []
  refine ⟨h.1, ?_⟩
  exact h.2.2.2.2 [] [] [] planOld planNoDate (by decide) rfl

/-- C10: `formatDateRange` is total (a function on strings by
construction) and returns a single formatted date (month, day, year) when
the end date is absent (or an empty string) or falls on the same
`toDateString` calendar day as the start date; a range (start as
month/day, end as month/day/year) when the days differ; and the raw
`startDate` string unchanged whenever date construction or formatting
throws. Stated over any date backend. -/
theorem exceptBind_ok {α β : Type} (a : α) (f : α → Except Unit β) :
    (Except.ok a >>= f) = f a := rfl

theorem exceptMap_ok {α β : Type} (g : α → β) (a : α) :
    (g <$> (Except.ok a : Except Unit α)) = Except.ok (g a) := rfl

theorem c10_format_date_range {δ : Type} (B : DateBackend δ) (s : String)
    (oe : Option String) :
    (∀ d r, B.parse s = .ok d → (oe = none ∨ oe = some "") →
      B.fmtMDY d = .ok r → formatDateRange B s oe = r) ∧
    (∀ d e de x r, B.parse s = .ok d → oe = some e → e ≠ "" →
      B.parse e = .ok de → B.toDateString d = .ok x → B.toDateString de = .ok x →
      B.fmtMDY d = .ok r → formatDateRange B s oe = r) ∧
    (∀ d e de x y u v, B.parse s = .ok d → oe = some e → e ≠ "" →
      B.parse e = .ok de → B.toDateString d = .ok x → B.toDateString de = .ok y →
      x ≠ y → B.fmtMD d = .ok u → B.fmtMDY de = .ok v →
      formatDateRange B s oe = u ++ " - " ++ v) ∧
    (formatDateRangeE B s oe = .error () → formatDateRange B s oe = s) := by
  refine ⟨?_, ?_, ?_, ?_⟩
  · intro d r hp hoe hf
    rcases hoe with rfl | rfl <;>
      simp [formatDateRange, formatDateRangeE, hp, hf, exceptBind_ok, exceptMap_ok]
  · intro d e de x r hp hoe he hpe hts htse hf
    subst hoe
    simp [formatDateRange, formatDateRangeE, hp, he, hpe, hts, htse, hf,
      exceptBind_ok, exceptMap_ok]
  · intro d e de x y u v hp hoe he hpe hts htse hxy hu hv
    subst hoe
    simp [formatDateRange, formatDateRangeE, hp, he, hpe, hts, htse, hxy, hu, hv,
      exceptBind_ok, exceptMap_ok]
  · intro herr
    simp [formatDateRange, herr]

/-- Backend for witnesses: dates are their strings; the calendar day is
the first seven characters (year-month); formatters tag the string. -/
def okBackend : DateBackend String :=
  { parse := fun s => .ok s,
    toDateString := fun d => .ok (d.take 7),
    fmtMDY := fun d => .ok ("MDY " ++ d),
    fmtMD := fun d => .ok ("MD " ++ d) }

/-- Backend whose date construction always throws. -/
def failBackend : DateBackend String :=
  { parse := fun _ => .error (),
    toDateString := fun d => .ok d,
    fmtMDY := fun d => .ok d,
    fmtMD := fun d => .ok d }

/-- Witness for C10 at concrete inputs: all four cases — no end date,
same-day end date, different-day end date, and throwing construction. -/
theorem c10_format_date_range_witness :
    formatDateRange okBackend "2024-06-01" none = "MDY 2024-06-01" ∧
    formatDateRange okBackend "2024-06-01" (some "2024-06-02")
      = "MDY 2024-06-01" ∧
    formatDateRange okBackend "2024-06-01" (some "2024-07-05")
      = "MD 2024-06-01 - MDY 2024-07-05" ∧
    formatDateRange failBackend "not a date" none = "not a date" := by
  refine ⟨?_, ?_, ?_, ?_⟩
  · exact (c10_format_date_range okBackend "2024-06-01" none).1
      "2024-06-01" "MDY 2024-06-01" rfl (Or.inl rfl) rfl
  · exact (c10_format_date_range okBackend "2024-06-01" (some "2024-06-02")).2.1
      "2024-06-01" "2024-06-02" "2024-06-02" "2024-06" "MDY 2024-06-01"
      rfl rfl (by decide) rfl rfl rfl rfl
  · exact (c10_format_date_range okBackend "2024-06-01" (some "2024-07-05")).2.2.1
      "2024-06-01" "2024-07-05" "2024-07-05" "2024-06" "2024-07"
      "MD 2024-06-01" "MDY 2024-07-05"
      rfl rfl (by decide) rfl rfl rfl (by decide) rfl rfl
  · exact (c10_format_date_range failBackend "not a date" none).2.2.2 rfl

end TrailMate
